import Mathlib

/-!
Shallow embedding of the CRUD services of this repository:
`src/services/questionService.js` and `src/services/subjectService.js`.

JavaScript numbers are modelled as rationals, strings as `String`,
absent object fields as `none`.  Each service function becomes a pure
function from a store state (the Prisma-managed table plus the
auto-increment counter and the clock used for system-assigned
timestamps) to an `Except` result paired with the resulting store
state; a thrown error returns the unchanged store.
-/

/-- Numeric value of a list of decimal digit characters, most significant first. -/
def digitsToNat (l : List Char) : Nat :=
  l.foldl (fun a c => a * 10 + (c.toNat - 48)) 0

/-- Helper for string-to-number conversion: unsigned decimal literal
`digits [. digits]`; `none` models NaN. -/
def strToNumberCore (cs : List Char) : Option ℚ :=
  let ip := cs.takeWhile Char.isDigit
  let rest := cs.dropWhile Char.isDigit
  if ip.isEmpty then none
  else
    match rest with
    | [] => some (digitsToNat ip : ℚ)
    | '.' :: frac =>
      if frac.all Char.isDigit then
        some ((digitsToNat ip : ℚ) + (digitsToNat frac : ℚ) / (10 ^ frac.length : ℚ))
      else none
    | _ => none

/-- JavaScript `Number(s)` conversion, modelled for plain decimal literals
`[sign] digits [. digits]` (the empty string converts to 0); `none` models NaN. -/
def strToNumber (s : String) : Option ℚ :=
  if s = "" then some 0
  else
    match s.toList with
    | '-' :: r => (strToNumberCore r).map (fun q => -q)
    | '+' :: r => strToNumberCore r
    | r => strToNumberCore r

/-- Helper for `parseInt` on strings: leading unsigned decimal digits. -/
def strParseIntCore (cs : List Char) : Option Nat :=
  let ds := cs.takeWhile Char.isDigit
  if ds.isEmpty then none else some (digitsToNat ds)

/-- JavaScript `parseInt(s)`: optional sign followed by leading decimal digits;
`none` models NaN. -/
def strParseInt (s : String) : Option ℤ :=
  match s.toList with
  | '-' :: r => (strParseIntCore r).map (fun n => -(n : ℤ))
  | '+' :: r => (strParseIntCore r).map (fun n => (n : ℤ))
  | r => (strParseIntCore r).map (fun n => (n : ℤ))

/-- Truncation toward zero: the value of JavaScript `parseInt` on a number
written as a plain decimal. -/
def ratTrunc (q : ℚ) : ℤ := if 0 ≤ q then ⌊q⌋ else -⌊-q⌋

/-- A JavaScript value supplied as an id argument: a number, a string,
or `undefined` (missing argument). -/
inductive JsId where
  | num (q : ℚ)
  | str (s : String)
  | undef
deriving Repr, DecidableEq

/-- JavaScript truthiness of an id value; `!v` in the source is its negation. -/
def JsId.truthy : JsId → Bool
  | .num q => q != 0
  | .str s => s != ""
  | .undef => false

/-- Numeric coercion `Number(v)`; `none` models NaN. -/
def JsId.toNumber : JsId → Option ℚ
  | .num q => some q
  | .str s => strToNumber s
  | .undef => none

/-- JavaScript `isNaN(v)`: coerce to number, test for NaN. -/
def JsId.isNaNjs (v : JsId) : Bool := v.toNumber.isNone

/-- JavaScript `v <= 0` on an id value: numeric coercion; every comparison
with NaN is false. -/
def JsId.leZero (v : JsId) : Bool :=
  match v.toNumber with
  | some q => decide (q ≤ 0)
  | none => false

/-- JavaScript `parseInt(v)`; `none` models NaN. -/
def JsId.parseInt : JsId → Option ℤ
  | .num q => some (ratTrunc q)
  | .str s => strParseInt s
  | .undef => none

/-- `String(v)`, as used by the template literals in error messages. -/
def jsIdString : JsId → String
  | .num q => toString q
  | .str s => s
  | .undef => "undefined"

/-- The id guard `!id || isNaN(id) || id <= 0` shared by the getById,
update and delete functions of both services. -/
def invalidId (v : JsId) : Bool := !v.truthy || v.isNaNjs || v.leZero

/-- The integer id a call operates on, `parseInt(id)`; defaults to 0 in the
NaN case, which is unreachable once the guard has passed. -/
def resolvedId (v : JsId) : ℤ := (JsId.parseInt v).getD 0

/-- The closed set of error kinds the services throw.  The source throws
plain `Error` values; the four kinds correspond to its four message
families. -/
inductive ServiceError where
  | invalidArgument (msg : String)
  | validationError (msg : String)
  | conflict (msg : String)
  | notFound (msg : String)
deriving Repr, DecidableEq

/-- Error kinds without their messages. -/
inductive ErrKind where
  | invalidArgument
  | validationError
  | conflict
  | notFound
deriving Repr, DecidableEq

/-- The kind of a thrown error. -/
def ServiceError.kind : ServiceError → ErrKind
  | .invalidArgument _ => .invalidArgument
  | .validationError _ => .validationError
  | .conflict _ => .conflict
  | .notFound _ => .notFound

/-- The call failed with an error of kind `k` (any message). -/
def failsWith {α : Type} (r : Except ServiceError α) (k : ErrKind) : Bool :=
  match r with
  | .error e => e.kind == k
  | .ok _ => false

/-- Truthiness of an optional string field: absent and the empty string
are falsy. -/
def strTruthy : Option String → Bool
  | some s => s != ""
  | none => false

/-- Truthiness of an optional numeric field: absent and 0 are falsy. -/
def numTruthy : Option ℚ → Bool
  | some q => q != 0
  | none => false

/-- The shared id-guard error message. -/
def idErrMsg : String := "ID inválido. Deve ser um número positivo"

/-- A stored question row: all columns of the Prisma question model. -/
structure Question where
  id : ℤ
  enunciado : String
  dificuldade : ℚ
  respostaCorreta : String
  disciplinaId : ℚ
  autorId : ℚ
  ativa : Bool
  createdAt : ℤ
  updatedAt : ℤ
deriving Repr, DecidableEq

/-- The question table plus the state Prisma uses for system-assigned
columns: the next auto-increment id and the clock stamped into
`createdAt` and `updatedAt`. -/
structure QuestionDB where
  rows : List Question
  nextId : ℤ
  now : ℤ
deriving Repr, DecidableEq

/-- `prisma.question.findUnique` on the unique `id` column. -/
def QuestionDB.findUniqueId (db : QuestionDB) (i : ℤ) : Option Question :=
  db.rows.find? (fun r => r.id == i)

/-- `prisma.question.findUnique` on the unique `enunciado` column
(the body of `enunciadoExists`). -/
def QuestionDB.findUniqueEnunciado (db : QuestionDB) (e : String) : Option Question :=
  db.rows.find? (fun r => r.enunciado == e)

/-- The `questionData` argument of create/update: each field either absent
or a value of its column type. -/
structure QuestionData where
  enunciado : Option String := none
  dificuldade : Option ℚ := none
  respostaCorreta : Option String := none
  disciplinaId : Option ℚ := none
  autorId : Option ℚ := none
  ativa : Option Bool := none
deriving Repr, DecidableEq

/-- `validateQuestionData`: truthiness check on the five required fields,
then the [1,5] range check on `dificuldade`. -/
def validateQuestionData (d : QuestionData) : Except ServiceError Unit :=
  if !strTruthy d.enunciado || !numTruthy d.dificuldade || !strTruthy d.respostaCorreta
      || !numTruthy d.disciplinaId || !numTruthy d.autorId then
    Except.error (ServiceError.validationError
      "Enunciado, dificuldade, resposta correta, id da disciplina e id do autor são obrigatórios")
  else if d.dificuldade.getD 0 < 1 ∨ 5 < d.dificuldade.getD 0 then
    Except.error (ServiceError.validationError "Dificuldade deve ser entre 1 e 5")
  else Except.ok ()

/-- `createQuestion`: validate, uniqueness pre-check on `enunciado`, then
insert with `ativa` defaulted to true when absent and system-assigned
id and timestamps. -/
def createQuestion (db : QuestionDB) (d : QuestionData) :
    Except ServiceError Question × QuestionDB :=
  match validateQuestionData d with
  | Except.error e => (Except.error e, db)
  | Except.ok _ =>
    if (db.findUniqueEnunciado (d.enunciado.getD "")).isSome then
      (Except.error (ServiceError.conflict "Enunciado já cadastrado no sistema"), db)
    else
      let r : Question :=
        { id := db.nextId
          enunciado := d.enunciado.getD ""
          dificuldade := d.dificuldade.getD 0
          respostaCorreta := d.respostaCorreta.getD ""
          disciplinaId := d.disciplinaId.getD 0
          autorId := d.autorId.getD 0
          ativa := d.ativa.getD true
          createdAt := db.now
          updatedAt := db.now }
      (Except.ok r, { db with rows := db.rows ++ [r], nextId := db.nextId + 1 })

/-- The sparse patch `dadosAtualizacao` built by `updateQuestion`: a field
enters the patch only when truthy, except `ativa`, which enters whenever
it is not undefined. -/
def questionPatch (d : QuestionData) : QuestionData :=
  { enunciado := if strTruthy d.enunciado then d.enunciado else none
    dificuldade := if numTruthy d.dificuldade then d.dificuldade else none
    respostaCorreta := if strTruthy d.respostaCorreta then d.respostaCorreta else none
    disciplinaId := if numTruthy d.disciplinaId then d.disciplinaId else none
    autorId := if numTruthy d.autorId then d.autorId else none
    ativa := d.ativa }

/-- `prisma.question.update`: fields present in the patch overwrite the row,
and the `@updatedAt` column is refreshed to the clock. -/
def applyQuestionPatch (now : ℤ) (p : QuestionData) (r : Question) : Question :=
  { r with
    enunciado := p.enunciado.getD r.enunciado
    dificuldade := p.dificuldade.getD r.dificuldade
    respostaCorreta := p.respostaCorreta.getD r.respostaCorreta
    disciplinaId := p.disciplinaId.getD r.disciplinaId
    autorId := p.autorId.getD r.autorId
    ativa := p.ativa.getD r.ativa
    updatedAt := now }

/-- `updateQuestion`: id guard, existence check, uniqueness re-check when a
differing truthy `enunciado` is supplied, range re-check when a truthy
`dificuldade` is supplied, then the sparse-patch write. -/
def updateQuestion (db : QuestionDB) (v : JsId) (d : QuestionData) :
    Except ServiceError Question × QuestionDB :=
  if invalidId v then (Except.error (ServiceError.invalidArgument idErrMsg), db)
  else
    match db.findUniqueId (resolvedId v) with
    | none =>
      (Except.error (ServiceError.notFound
        ("Questão com ID " ++ jsIdString v ++ " não encontrada")), db)
    | some existente =>
      if strTruthy d.enunciado ∧ d.enunciado.getD "" ≠ existente.enunciado
          ∧ (db.findUniqueEnunciado (d.enunciado.getD "")).isSome then
        (Except.error (ServiceError.conflict "Enunciado já está em uso por outra questão"), db)
      else if numTruthy d.dificuldade ∧
          (d.dificuldade.getD 0 < 1 ∨ 5 < d.dificuldade.getD 0) then
        (Except.error (ServiceError.validationError "Dificuldade deve ser entre 1 e 5"), db)
      else
        let r2 := applyQuestionPatch db.now (questionPatch d) existente
        (Except.ok r2,
          { db with rows := db.rows.map (fun x => if x.id == resolvedId v then r2 else x) })

/-- The projection selected by the pre-deletion lookup of `deleteQuestion`:
id, enunciado, dificuldade, respostaCorreta, disciplinaId and autorId only. -/
structure QuestionDeleteView where
  id : ℤ
  enunciado : String
  dificuldade : ℚ
  respostaCorreta : String
  disciplinaId : ℚ
  autorId : ℚ
deriving Repr, DecidableEq

/-- Shape a row to the delete-lookup projection. -/
def questionDeleteView (r : Question) : QuestionDeleteView :=
  { id := r.id, enunciado := r.enunciado, dificuldade := r.dificuldade,
    respostaCorreta := r.respostaCorreta, disciplinaId := r.disciplinaId,
    autorId := r.autorId }

/-- `deleteQuestion`: id guard, pre-deletion lookup (with the reduced
projection), NotFound when absent, else delete the row and return the
snapshot. -/
def deleteQuestion (db : QuestionDB) (v : JsId) :
    Except ServiceError QuestionDeleteView × QuestionDB :=
  if invalidId v then (Except.error (ServiceError.invalidArgument idErrMsg), db)
  else
    match db.findUniqueId (resolvedId v) with
    | none =>
      (Except.error (ServiceError.notFound
        ("Questão com ID " ++ jsIdString v ++ " não encontrada")), db)
    | some r =>
      (Except.ok (questionDeleteView r),
        { db with rows := db.rows.filter (fun x => x.id != resolvedId v) })

/-- `getQuestionById`: id guard, then `findUnique`; a read, so the store is
not returned. The absent case is `Except.ok none`, not an error. -/
def getQuestionById (db : QuestionDB) (v : JsId) : Except ServiceError (Option Question) :=
  if invalidId v then Except.error (ServiceError.invalidArgument idErrMsg)
  else Except.ok (db.findUniqueId (resolvedId v))

/-- `getAllQuestions`: `findMany` ordered by `createdAt` descending. -/
def getAllQuestions (db : QuestionDB) : List Question :=
  db.rows.mergeSort (fun a b => decide (b.createdAt ≤ a.createdAt))

/-- A stored subject row: all columns of the Prisma subject model. -/
structure Subject where
  id : ℤ
  nome : String
  ativa : Bool
  professorId : ℚ
  createdAt : ℤ
  updatedAt : ℤ
deriving Repr, DecidableEq

/-- The subject table plus auto-increment counter and clock. -/
structure SubjectDB where
  rows : List Subject
  nextId : ℤ
  now : ℤ
deriving Repr, DecidableEq

/-- `prisma.subject.findUnique` on the unique `id` column. -/
def SubjectDB.findUniqueId (db : SubjectDB) (i : ℤ) : Option Subject :=
  db.rows.find? (fun r => r.id == i)

/-- `prisma.subject.findUnique` on the unique `nome` column
(the body of `nomeExists`). -/
def SubjectDB.findUniqueNome (db : SubjectDB) (n : String) : Option Subject :=
  db.rows.find? (fun r => r.nome == n)

/-- The `subjectData` argument of create/update. -/
structure SubjectData where
  nome : Option String := none
  ativa : Option Bool := none
  professorId : Option ℚ := none
deriving Repr, DecidableEq

/-- `validateSubjectData`: truthiness check on `nome` and `professorId`. -/
def validateSubjectData (d : SubjectData) : Except ServiceError Unit :=
  if !strTruthy d.nome || !numTruthy d.professorId then
    Except.error (ServiceError.validationError "Nome e ID do professor são obrigatórios.")
  else Except.ok ()

/-- `createSubject`: validate, uniqueness pre-check on `nome`, then insert
with `ativa` defaulted to true when absent. -/
def createSubject (db : SubjectDB) (d : SubjectData) :
    Except ServiceError Subject × SubjectDB :=
  match validateSubjectData d with
  | Except.error e => (Except.error e, db)
  | Except.ok _ =>
    if (db.findUniqueNome (d.nome.getD "")).isSome then
      (Except.error (ServiceError.conflict "Nome de disciplina já cadastrado no sistema"), db)
    else
      let r : Subject :=
        { id := db.nextId
          nome := d.nome.getD ""
          ativa := d.ativa.getD true
          professorId := d.professorId.getD 0
          createdAt := db.now
          updatedAt := db.now }
      (Except.ok r, { db with rows := db.rows ++ [r], nextId := db.nextId + 1 })

/-- The sparse patch `dadosAtualizacao` built by `updateSubject`. -/
def subjectPatch (d : SubjectData) : SubjectData :=
  { nome := if strTruthy d.nome then d.nome else none
    ativa := d.ativa
    professorId := if numTruthy d.professorId then d.professorId else none }

/-- `prisma.subject.update`: patch fields overwrite the row and the
`@updatedAt` column is refreshed. -/
def applySubjectPatch (now : ℤ) (p : SubjectData) (r : Subject) : Subject :=
  { r with
    nome := p.nome.getD r.nome
    ativa := p.ativa.getD r.ativa
    professorId := p.professorId.getD r.professorId
    updatedAt := now }

/-- `updateSubject`: id guard, existence check, uniqueness re-check when a
differing truthy `nome` is supplied, then the sparse-patch write. -/
def updateSubject (db : SubjectDB) (v : JsId) (d : SubjectData) :
    Except ServiceError Subject × SubjectDB :=
  if invalidId v then (Except.error (ServiceError.invalidArgument idErrMsg), db)
  else
    match db.findUniqueId (resolvedId v) with
    | none =>
      (Except.error (ServiceError.notFound
        ("Disciplina com ID " ++ jsIdString v ++ " não encontrada")), db)
    | some existente =>
      if strTruthy d.nome ∧ d.nome.getD "" ≠ existente.nome
          ∧ (db.findUniqueNome (d.nome.getD "")).isSome then
        (Except.error (ServiceError.conflict "Nome já está em uso por outra disciplina"), db)
      else
        let r2 := applySubjectPatch db.now (subjectPatch d) existente
        (Except.ok r2,
          { db with rows := db.rows.map (fun x => if x.id == resolvedId v then r2 else x) })

/-- The projection selected by the pre-deletion lookup of `deleteSubject`:
id, nome, ativa and professorId only. -/
structure SubjectDeleteView where
  id : ℤ
  nome : String
  ativa : Bool
  professorId : ℚ
deriving Repr, DecidableEq

/-- Shape a row to the delete-lookup projection. -/
def subjectDeleteView (r : Subject) : SubjectDeleteView :=
  { id := r.id, nome := r.nome, ativa := r.ativa, professorId := r.professorId }

/-- `deleteSubject`: id guard, pre-deletion lookup, NotFound when absent,
else delete the row and return the snapshot. -/
def deleteSubject (db : SubjectDB) (v : JsId) :
    Except ServiceError SubjectDeleteView × SubjectDB :=
  if invalidId v then (Except.error (ServiceError.invalidArgument idErrMsg), db)
  else
    match db.findUniqueId (resolvedId v) with
    | none =>
      (Except.error (ServiceError.notFound
        ("Disciplina com ID " ++ jsIdString v ++ " não encontrada")), db)
    | some r =>
      (Except.ok (subjectDeleteView r),
        { db with rows := db.rows.filter (fun x => x.id != resolvedId v) })

/-- `getSubjectById`: id guard, then `findUnique`; absent is `ok none`. -/
def getSubjectById (db : SubjectDB) (v : JsId) : Except ServiceError (Option Subject) :=
  if invalidId v then Except.error (ServiceError.invalidArgument idErrMsg)
  else Except.ok (db.findUniqueId (resolvedId v))

/-- `getAllSubjects`: `findMany` ordered by `createdAt` descending. -/
def getAllSubjects (db : SubjectDB) : List Subject :=
  db.rows.mergeSort (fun a b => decide (b.createdAt ≤ a.createdAt))

/-- The `select` clause of `getAllQuestions`, as a field-name list. -/
def getAllQuestionsSelect : List String :=
  ["id", "enunciado", "dificuldade", "respostaCorreta", "disciplinaId",
   "autorId", "ativa", "createdAt", "updatedAt"]

/-- The `select` clause of `getQuestionById`. -/
def getQuestionByIdSelect : List String :=
  ["id", "enunciado", "dificuldade", "respostaCorreta", "disciplinaId",
   "autorId", "ativa", "createdAt", "updatedAt"]

/-- The `select` clause of the insert in `createQuestion`. -/
def createQuestionSelect : List String :=
  ["id", "enunciado", "dificuldade", "respostaCorreta", "disciplinaId",
   "autorId", "ativa", "createdAt", "updatedAt"]

/-- The `select` clause of the write in `updateQuestion`. -/
def updateQuestionSelect : List String :=
  ["id", "enunciado", "dificuldade", "respostaCorreta", "disciplinaId",
   "autorId", "ativa", "createdAt", "updatedAt"]

/-- The `select` clause of the pre-deletion lookup in `deleteQuestion`. -/
def deleteQuestionSelect : List String :=
  ["id", "enunciado", "dificuldade", "respostaCorreta", "disciplinaId",
   "autorId"]

/-- The `select` clause of `getAllSubjects`. -/
def getAllSubjectsSelect : List String :=
  ["id", "nome", "ativa", "professorId", "createdAt", "updatedAt"]

/-- The `select` clause of `getSubjectById`. -/
def getSubjectByIdSelect : List String :=
  ["id", "nome", "ativa", "professorId", "createdAt", "updatedAt"]

/-- The `select` clause of the insert in `createSubject`. -/
def createSubjectSelect : List String :=
  ["id", "nome", "ativa", "professorId", "createdAt", "updatedAt"]

/-- The `select` clause of the write in `updateSubject`. -/
def updateSubjectSelect : List String :=
  ["id", "nome", "ativa", "professorId", "createdAt", "updatedAt"]

/-- The `select` clause of the pre-deletion lookup in `deleteSubject`. -/
def deleteSubjectSelect : List String :=
  ["id", "nome", "ativa", "professorId"]

/-- Modelled from the spec: the fixed field projection for Question output
(id, business fields, createdAt and updatedAt timestamps). -/
def specQuestionProjection : List String :=
  ["id", "enunciado", "dificuldade", "respostaCorreta", "disciplinaId",
   "autorId", "ativa", "createdAt", "updatedAt"]

/-- Modelled from the spec: the fixed field projection for Subject output
(id, business fields, createdAt and updatedAt timestamps). -/
def specSubjectProjection : List String :=
  ["id", "nome", "ativa", "professorId", "createdAt", "updatedAt"]

/-- Example question row used by concrete witnesses. -/
def exQ1 : Question :=
  { id := 1, enunciado := "2+2=?", dificuldade := 3, respostaCorreta := "4",
    disciplinaId := 7, autorId := 3, ativa := true, createdAt := 100, updatedAt := 100 }

/-- Example question store holding exactly `exQ1`. -/
def exQDB : QuestionDB := { rows := [exQ1], nextId := 2, now := 200 }

/-- Example subject row used by concrete witnesses. -/
def exS1 : Subject :=
  { id := 1, nome := "Algebra", ativa := true, professorId := 7,
    createdAt := 100, updatedAt := 100 }

/-- Example subject store holding exactly `exS1`. -/
def exSDB : SubjectDB := { rows := [exS1], nextId := 2, now := 200 }

/-- Example create input for Question: all required fields, ativa omitted. -/
def exQData : QuestionData :=
  { enunciado := some "3+3=?", dificuldade := some 2, respostaCorreta := some "6",
    disciplinaId := some 7, autorId := some 4 }

/-- The record the example Question create persists. -/
def exQNew : Question :=
  { id := 2, enunciado := "3+3=?", dificuldade := 2, respostaCorreta := "6",
    disciplinaId := 7, autorId := 4, ativa := true, createdAt := 200, updatedAt := 200 }

/-- Example create input for Subject: ativa supplied as false. -/
def exSData : SubjectData :=
  { nome := some "Geometria", ativa := some false, professorId := some 2 }

/-- The record the example Subject create persists. -/
def exSNew : Subject :=
  { id := 2, nome := "Geometria", ativa := false, professorId := 2,
    createdAt := 200, updatedAt := 200 }

/-! ## Helper lemmas -/

/-- Searching after replacing exactly the matching rows finds the
replacement, when a row matched before and the replacement still matches. -/
theorem find_after_replace {α : Type} (l : List α) (p : α → Bool) (r2 a : α)
    (hfind : l.find? p = some a) (hr2 : p r2 = true) :
    (l.map (fun x => if p x then r2 else x)).find? p = some r2 := by
  induction l with
  | nil => simp at hfind
  | cons x xs ih =>
    by_cases hx : p x = true
    · simp [hx, hr2]
    · rw [List.find?_cons_of_neg _ hx] at hfind
      have hfx : (if p x then r2 else x) = x := if_neg hx
      simp only [List.map_cons, hfx]
      rw [List.find?_cons_of_neg _ hx]
      exact ih hfind

/-- Success shape of `createQuestion`. -/
theorem createQuestion_ok (db : QuestionDB) (d : QuestionData) (q : Question)
    (h : (createQuestion db d).1 = Except.ok q) :
    q = { id := db.nextId, enunciado := d.enunciado.getD "",
          dificuldade := d.dificuldade.getD 0,
          respostaCorreta := d.respostaCorreta.getD "",
          disciplinaId := d.disciplinaId.getD 0, autorId := d.autorId.getD 0,
          ativa := d.ativa.getD true, createdAt := db.now, updatedAt := db.now } ∧
    (createQuestion db d).2.rows = db.rows ++ [q] := by
  cases hval : validateQuestionData d with
  | error e => simp [createQuestion, hval] at h
  | ok u =>
    by_cases hc : (db.findUniqueEnunciado (d.enunciado.getD "")).isSome
    · simp [createQuestion, hval, hc] at h
    · simp [createQuestion, hval, hc] at h ⊢
      exact ⟨h.symm, by rw [← h]⟩

/-- Success shape of `createSubject`. -/
theorem createSubject_ok (db : SubjectDB) (d : SubjectData) (s : Subject)
    (h : (createSubject db d).1 = Except.ok s) :
    s = { id := db.nextId, nome := d.nome.getD "", ativa := d.ativa.getD true,
          professorId := d.professorId.getD 0,
          createdAt := db.now, updatedAt := db.now } ∧
    (createSubject db d).2.rows = db.rows ++ [s] := by
  cases hval : validateSubjectData d with
  | error e => simp [createSubject, hval] at h
  | ok u =>
    by_cases hc : (db.findUniqueNome (d.nome.getD "")).isSome
    · simp [createSubject, hval, hc] at h
    · simp [createSubject, hval, hc] at h ⊢
      exact ⟨h.symm, by rw [← h]⟩

/-! ## Claims -/

/-- Claim C8: listAll returns every stored record of its entity type (a
permutation of the table, so no filtering and no pagination), ordered by
creation timestamp descending (newest first), for both services. -/
theorem listAll_all_rows_sorted_desc (qdb : QuestionDB) (sdb : SubjectDB) :
    (getAllQuestions qdb).Perm qdb.rows ∧
    List.Sorted (fun a b : Question => b.createdAt ≤ a.createdAt) (getAllQuestions qdb) ∧
    (getAllSubjects sdb).Perm sdb.rows ∧
    List.Sorted (fun a b : Subject => b.createdAt ≤ a.createdAt) (getAllSubjects sdb) := by
  refine ⟨List.mergeSort_perm qdb.rows _, ?_, List.mergeSort_perm sdb.rows _, ?_⟩
  · have h := @List.sorted_mergeSort Question
      (fun a b => decide (b.createdAt ≤ a.createdAt))
      (by intro a b c hab hbc; simp_all; omega)
      (by intro a b; simp; omega) qdb.rows
    simpa [List.Sorted, getAllQuestions] using h
  · have h := @List.sorted_mergeSort Subject
      (fun a b => decide (b.createdAt ≤ a.createdAt))
      (by intro a b c hab hbc; simp_all; omega)
      (by intro a b; simp; omega) sdb.rows
    simpa [List.Sorted, getAllSubjects] using h

/-- Claim C4 counterexample: the snapshot returned by delete is not shaped
to the fixed projection; its select clause omits the createdAt and updatedAt
timestamp columns for both entities (and the ativa flag for Question). -/
theorem delete_projection_cex :
    deleteQuestionSelect ≠ specQuestionProjection ∧
    "createdAt" ∉ deleteQuestionSelect ∧
    "updatedAt" ∉ deleteQuestionSelect ∧
    "ativa" ∉ deleteQuestionSelect ∧
    "createdAt" ∈ specQuestionProjection ∧
    "updatedAt" ∈ specQuestionProjection ∧
    deleteSubjectSelect ≠ specSubjectProjection ∧
    "createdAt" ∉ deleteSubjectSelect ∧
    "updatedAt" ∉ deleteSubjectSelect ∧
    "createdAt" ∈ specSubjectProjection ∧
    "updatedAt" ∈ specSubjectProjection := by
  decide

/-- Claim C4 amended: list, getById, create and update all return the fixed
projection (id, business fields, createdAt/updatedAt); delete returns a
reduced snapshot holding only id, enunciado, dificuldade, respostaCorreta,
disciplinaId and autorId for Question, and only id, nome, ativa and
professorId for Subject, omitting the timestamps. -/
theorem projection_shapes :
    getAllQuestionsSelect = specQuestionProjection ∧
    getQuestionByIdSelect = specQuestionProjection ∧
    createQuestionSelect = specQuestionProjection ∧
    updateQuestionSelect = specQuestionProjection ∧
    deleteQuestionSelect =
      ["id", "enunciado", "dificuldade", "respostaCorreta", "disciplinaId", "autorId"] ∧
    getAllSubjectsSelect = specSubjectProjection ∧
    getSubjectByIdSelect = specSubjectProjection ∧
    createSubjectSelect = specSubjectProjection ∧
    updateSubjectSelect = specSubjectProjection ∧
    deleteSubjectSelect = ["id", "nome", "ativa", "professorId"] := by
  decide

/-- Claim C6: getById fails with InvalidArgument whenever the id guard trips
(the guard trips on a missing id, on every nonpositive number, and on every
string that does not convert to a number); a valid positive id with no
matching record returns an absent result without error; and getById can
never produce a NotFound error, for both services. -/
theorem getById_invalid_and_absent (qdb : QuestionDB) (sdb : SubjectDB) (v : JsId) :
    (invalidId v = true →
      getQuestionById qdb v = Except.error (ServiceError.invalidArgument idErrMsg) ∧
      getSubjectById sdb v = Except.error (ServiceError.invalidArgument idErrMsg)) ∧
    (invalidId v = false → qdb.findUniqueId (resolvedId v) = none →
      getQuestionById qdb v = Except.ok none) ∧
    (invalidId v = false → sdb.findUniqueId (resolvedId v) = none →
      getSubjectById sdb v = Except.ok none) ∧
    failsWith (getQuestionById qdb v) ErrKind.notFound = false ∧
    failsWith (getSubjectById sdb v) ErrKind.notFound = false ∧
    (v = JsId.undef → invalidId v = true) ∧
    (∀ q : ℚ, v = JsId.num q → q ≤ 0 → invalidId v = true) ∧
    (∀ s : String, v = JsId.str s → (strToNumber s).isNone = true → invalidId v = true) := by
  refine ⟨?_, ?_, ?_, ?_, ?_, ?_, ?_, ?_⟩
  · intro h
    exact ⟨by simp [getQuestionById, h], by simp [getSubjectById, h]⟩
  · intro h h2
    simp [getQuestionById, h, h2]
  · intro h h2
    simp [getSubjectById, h, h2]
  · cases hI : invalidId v <;>
      simp [getQuestionById, failsWith, hI, ServiceError.kind]
  · cases hI : invalidId v <;>
      simp [getSubjectById, failsWith, hI, ServiceError.kind]
  · intro h; subst h; decide
  · intro q h hq
    subst h
    simp [invalidId, JsId.leZero, JsId.toNumber, hq]
  · intro s h hn
    subst h
    simp [invalidId, JsId.isNaNjs, JsId.toNumber, hn]

/-- Witness for C6 at concrete inputs: a non-numeric string id fails with
InvalidArgument and a valid unmatched id returns ok-none. -/
theorem getById_invalid_and_absent_witness :
    getQuestionById exQDB (JsId.str "abc") =
      Except.error (ServiceError.invalidArgument idErrMsg) ∧
    getQuestionById exQDB (JsId.num 5) = Except.ok none :=
  ⟨((getById_invalid_and_absent exQDB exSDB (JsId.str "abc")).1 (by decide)).1,
   (getById_invalid_and_absent exQDB exSDB (JsId.num 5)).2.1 (by decide) (by decide)⟩

/-- Claim C7: every successful create persists the returned record, whose
active flag equals the supplied value and defaults to true when the field is
omitted, for both services. -/
theorem create_active_flag (qdb : QuestionDB) (sdb : SubjectDB)
    (dq : QuestionData) (ds : SubjectData) (q : Question) (s : Subject)
    (hq : (createQuestion qdb dq).1 = Except.ok q)
    (hs : (createSubject sdb ds).1 = Except.ok s) :
    q.ativa = dq.ativa.getD true ∧
    (∀ b, dq.ativa = some b → q.ativa = b) ∧
    (dq.ativa = none → q.ativa = true) ∧
    q ∈ (createQuestion qdb dq).2.rows ∧
    s.ativa = ds.ativa.getD true ∧
    (∀ b, ds.ativa = some b → s.ativa = b) ∧
    (ds.ativa = none → s.ativa = true) ∧
    s ∈ (createSubject sdb ds).2.rows := by
  obtain ⟨hqe, hqr⟩ := createQuestion_ok qdb dq q hq
  obtain ⟨hse, hsr⟩ := createSubject_ok sdb ds s hs
  refine ⟨by rw [hqe], ?_, ?_, by rw [hqr]; simp, by rw [hse], ?_, ?_, by rw [hsr]; simp⟩
  · intro b hb; rw [hqe]; simp [hb]
  · intro hb; rw [hqe]; simp [hb]
  · intro b hb; rw [hse]; simp [hb]
  · intro hb; rw [hse]; simp [hb]

/-- Claim C2: for an existing record, an empty-patch update changes only the
updatedAt timestamp, both in the returned record and in the store, while an
update supplying active=false differs from the empty patch exactly by
clearing the active flag, for both services. -/
theorem update_empty_patch_frame (qdb : QuestionDB) (sdb : SubjectDB) (v : JsId)
    (q : Question) (s : Subject) (hv : invalidId v = false)
    (hq : qdb.findUniqueId (resolvedId v) = some q)
    (hs : sdb.findUniqueId (resolvedId v) = some s) :
    (updateQuestion qdb v {}).1 = Except.ok { q with updatedAt := qdb.now } ∧
    getQuestionById (updateQuestion qdb v {}).2 v =
      Except.ok (some { q with updatedAt := qdb.now }) ∧
    (updateQuestion qdb v { ativa := some false }).1 =
      Except.ok { q with ativa := false, updatedAt := qdb.now } ∧
    (updateSubject sdb v {}).1 = Except.ok { s with updatedAt := sdb.now } ∧
    getSubjectById (updateSubject sdb v {}).2 v =
      Except.ok (some { s with updatedAt := sdb.now }) ∧
    (updateSubject sdb v { ativa := some false }).1 =
      Except.ok { s with ativa := false, updatedAt := sdb.now } := by
  have hq' : qdb.rows.find? (fun r => r.id == resolvedId v) = some q := hq
  have hs' : sdb.rows.find? (fun r => r.id == resolvedId v) = some s := hs
  have hpq : (q.id == resolvedId v) = true := by
    have h := List.find?_some hq'
    simpa using h
  have hps : (s.id == resolvedId v) = true := by
    have h := List.find?_some hs'
    simpa using h
  refine ⟨?_, ?_, ?_, ?_, ?_, ?_⟩
  · simp [updateQuestion, hv, hq, questionPatch, applyQuestionPatch, strTruthy, numTruthy]
  · have h2 : (updateQuestion qdb v ({} : QuestionData)).2 =
        { qdb with rows := qdb.rows.map (fun x => if x.id == resolvedId v then
            { q with updatedAt := qdb.now } else x) } := by
      simp [updateQuestion, hv, hq, questionPatch, applyQuestionPatch, strTruthy, numTruthy]
    rw [h2]
    have hrep := find_after_replace qdb.rows (fun r => r.id == resolvedId v)
      { q with updatedAt := qdb.now } q hq' (by simpa using hpq)
    simp only [getQuestionById, hv, Bool.false_eq_true, if_false, QuestionDB.findUniqueId]
    rw [hrep]
  · simp [updateQuestion, hv, hq, questionPatch, applyQuestionPatch, strTruthy, numTruthy]
  · simp [updateSubject, hv, hs, subjectPatch, applySubjectPatch, strTruthy, numTruthy]
  · have h2 : (updateSubject sdb v ({} : SubjectData)).2 =
        { sdb with rows := sdb.rows.map (fun x => if x.id == resolvedId v then
            { s with updatedAt := sdb.now } else x) } := by
      simp [updateSubject, hv, hs, subjectPatch, applySubjectPatch, strTruthy, numTruthy]
    rw [h2]
    have hrep := find_after_replace sdb.rows (fun r => r.id == resolvedId v)
      { s with updatedAt := sdb.now } s hs' (by simpa using hps)
    simp only [getSubjectById, hv, Bool.false_eq_true, if_false, SubjectDB.findUniqueId]
    rw [hrep]
  · simp [updateSubject, hv, hs, subjectPatch, applySubjectPatch, strTruthy, numTruthy]

/-- Witness for C2 at concrete inputs: the empty patch touches only
updatedAt and the active-false patch additionally clears ativa. -/
theorem update_empty_patch_frame_witness :
    (updateQuestion exQDB (JsId.num 1) {}).1 =
      Except.ok { exQ1 with updatedAt := 200 } ∧
    (updateQuestion exQDB (JsId.num 1) { ativa := some false }).1 =
      Except.ok { exQ1 with ativa := false, updatedAt := 200 } ∧
    (updateSubject exSDB (JsId.num 1) { ativa := some false }).1 =
      Except.ok { exS1 with ativa := false, updatedAt := 200 } :=
  ⟨(update_empty_patch_frame exQDB exSDB (JsId.num 1) exQ1 exS1
      (by decide) (by decide) (by decide)).1,
   (update_empty_patch_frame exQDB exSDB (JsId.num 1) exQ1 exS1
      (by decide) (by decide) (by decide)).2.2.1,
   (update_empty_patch_frame exQDB exSDB (JsId.num 1) exQ1 exS1
      (by decide) (by decide) (by decide)).2.2.2.2.2⟩

/-- Claim C3: delete of an unmatched id fails with NotFound and leaves the
store unchanged; delete of an existing id returns the pre-deletion snapshot
and a subsequent getById on that id returns an absent result, for both
services. -/
theorem delete_notfound_snapshot (qdb : QuestionDB) (sdb : SubjectDB) (v : JsId)
    (hv : invalidId v = false) :
    (qdb.findUniqueId (resolvedId v) = none →
      failsWith (deleteQuestion qdb v).1 ErrKind.notFound = true ∧
      (deleteQuestion qdb v).2 = qdb) ∧
    (∀ q, qdb.findUniqueId (resolvedId v) = some q →
      (deleteQuestion qdb v).1 = Except.ok (questionDeleteView q) ∧
      getQuestionById (deleteQuestion qdb v).2 v = Except.ok none) ∧
    (sdb.findUniqueId (resolvedId v) = none →
      failsWith (deleteSubject sdb v).1 ErrKind.notFound = true ∧
      (deleteSubject sdb v).2 = sdb) ∧
    (∀ s, sdb.findUniqueId (resolvedId v) = some s →
      (deleteSubject sdb v).1 = Except.ok (subjectDeleteView s) ∧
      getSubjectById (deleteSubject sdb v).2 v = Except.ok none) := by
  refine ⟨?_, ?_, ?_, ?_⟩
  · intro h
    exact ⟨by simp [deleteQuestion, hv, h, failsWith, ServiceError.kind],
           by simp [deleteQuestion, hv, h]⟩
  · intro q h
    refine ⟨by simp [deleteQuestion, hv, h], ?_⟩
    have h2 : (deleteQuestion qdb v).2 =
        { qdb with rows := qdb.rows.filter (fun x => x.id != resolvedId v) } := by
      simp [deleteQuestion, hv, h]
    rw [h2]
    have hnone : (qdb.rows.filter (fun x => x.id != resolvedId v)).find?
        (fun r => r.id == resolvedId v) = none := by
      rw [List.find?_eq_none]
      intro x hx
      have hmem := (List.mem_filter.mp hx).2
      simpa using hmem
    simp only [getQuestionById, hv, Bool.false_eq_true, if_false, QuestionDB.findUniqueId]
    rw [hnone]
  · intro h
    exact ⟨by simp [deleteSubject, hv, h, failsWith, ServiceError.kind],
           by simp [deleteSubject, hv, h]⟩
  · intro s h
    refine ⟨by simp [deleteSubject, hv, h], ?_⟩
    have h2 : (deleteSubject sdb v).2 =
        { sdb with rows := sdb.rows.filter (fun x => x.id != resolvedId v) } := by
      simp [deleteSubject, hv, h]
    rw [h2]
    have hnone : (sdb.rows.filter (fun x => x.id != resolvedId v)).find?
        (fun r => r.id == resolvedId v) = none := by
      rw [List.find?_eq_none]
      intro x hx
      have hmem := (List.mem_filter.mp hx).2
      simpa using hmem
    simp only [getSubjectById, hv, Bool.false_eq_true, if_false, SubjectDB.findUniqueId]
    rw [hnone]

/-- Witness for C3 at concrete inputs: NotFound with untouched store on a
missing id, snapshot and subsequent absent read on an existing id. -/
theorem delete_notfound_snapshot_witness :
    (failsWith (deleteQuestion exQDB (JsId.num 5)).1 ErrKind.notFound = true ∧
      (deleteQuestion exQDB (JsId.num 5)).2 = exQDB) ∧
    (deleteQuestion exQDB (JsId.num 1)).1 = Except.ok (questionDeleteView exQ1) ∧
    getQuestionById (deleteQuestion exQDB (JsId.num 1)).2 (JsId.num 1) = Except.ok none :=
  ⟨(delete_notfound_snapshot exQDB exSDB (JsId.num 5) (by decide)).1 (by decide),
   (delete_notfound_snapshot exQDB exSDB (JsId.num 1) (by decide)).2.1 exQ1 (by decide)⟩

/-- Claim C10: update silently drops every supplied-but-falsy field other
than the active flag (empty-string statement, answer or name, zero
difficulty or reference ids): with all non-active fields falsy and active
absent, update succeeds and changes nothing but updatedAt, for both
services. -/
theorem update_drops_falsy_fields (qdb : QuestionDB) (sdb : SubjectDB) (v : JsId)
    (q : Question) (s : Subject) (dq : QuestionData) (ds : SubjectData)
    (hv : invalidId v = false)
    (hq : qdb.findUniqueId (resolvedId v) = some q)
    (hs : sdb.findUniqueId (resolvedId v) = some s)
    (h1 : strTruthy dq.enunciado = false) (h2 : numTruthy dq.dificuldade = false)
    (h3 : strTruthy dq.respostaCorreta = false) (h4 : numTruthy dq.disciplinaId = false)
    (h5 : numTruthy dq.autorId = false) (h6 : dq.ativa = none)
    (h7 : strTruthy ds.nome = false) (h8 : numTruthy ds.professorId = false)
    (h9 : ds.ativa = none) :
    (updateQuestion qdb v dq).1 = Except.ok { q with updatedAt := qdb.now } ∧
    (updateSubject sdb v ds).1 = Except.ok { s with updatedAt := sdb.now } := by
  constructor
  · simp [updateQuestion, hv, hq, questionPatch, applyQuestionPatch, h1, h2, h3, h4, h5, h6]
  · simp [updateSubject, hv, hs, subjectPatch, applySubjectPatch, h7, h8, h9]

/-- Witness for C10 at concrete falsy-present inputs: every falsy field is
dropped without an error and the record is unchanged but for updatedAt. -/
theorem update_drops_falsy_fields_witness :
    (updateQuestion exQDB (JsId.num 1)
        { enunciado := some "", dificuldade := some 0, respostaCorreta := some "",
          disciplinaId := some 0, autorId := some 0 }).1 =
      Except.ok { exQ1 with updatedAt := 200 } ∧
    (updateSubject exSDB (JsId.num 1) { nome := some "", professorId := some 0 }).1 =
      Except.ok { exS1 with updatedAt := 200 } :=
  update_drops_falsy_fields exQDB exSDB (JsId.num 1) exQ1 exS1
    { enunciado := some "", dificuldade := some 0, respostaCorreta := some "",
      disciplinaId := some 0, autorId := some 0 }
    { nome := some "", professorId := some 0 }
    (by decide) (by decide) (by decide) (by decide) (by decide) (by decide)
    (by decide) (by decide) (by decide) (by decide) (by decide) (by decide)

/-- Witness for C7 at concrete inputs: omitted ativa persists as true
(Question) and an explicit false persists as false (Subject). -/
theorem create_active_flag_witness :
    exQNew.ativa = true ∧ exSNew.ativa = false :=
  ⟨((create_active_flag exQDB exSDB exQData exSData exQNew exSNew rfl rfl).1).trans rfl,
   ((create_active_flag exQDB exSDB exQData exSData exQNew exSNew rfl rfl).2.2.2.2.1).trans rfl⟩

/-- With a supplied difficulty outside [1,5], validation always fails. -/
theorem validateQuestionData_out_of_range (d : QuestionData) (q : ℚ)
    (hd : d.dificuldade = some q) (hout : q < 1 ∨ 5 < q) :
    ∃ m, validateQuestionData d = Except.error (ServiceError.validationError m) := by
  unfold validateQuestionData
  split
  · exact ⟨_, rfl⟩
  · split
    · exact ⟨_, rfl⟩
    · rename_i hcond hrange
      exfalso
      rw [hd] at hrange
      simp only [Option.getD_some] at hrange
      push_neg at hrange
      rcases hout with h | h
      · linarith [hrange.1]
      · linarith [hrange.2]

/-- Claim C1 counterexample: updating an existing question with difficulty 0
does not fail with a ValidationError as the claim requires; it succeeds and
silently leaves the stored difficulty (3) unchanged. -/
theorem update_difficulty_zero_cex :
    (updateQuestion exQDB (JsId.num 1) { dificuldade := some 0 }).1 =
      Except.ok { exQ1 with updatedAt := 200 } ∧
    failsWith (updateQuestion exQDB (JsId.num 1) { dificuldade := some 0 }).1
      ErrKind.validationError = false := by
  exact ⟨rfl, rfl⟩

/-- Claim C1 amended: create fails with a ValidationError for every supplied
difficulty outside [1,5], and succeeds for any difficulty inside [1,5] when
the other required fields are valid and the statement is fresh; update
re-validates the range only for a truthy (nonzero) supplied difficulty,
failing with a ValidationError outside [1,5] and applying the value inside,
while a supplied difficulty of 0 is silently dropped and the stored value
kept. -/
theorem difficulty_validation (db : QuestionDB) (d : QuestionData) (v : JsId) (q : ℚ)
    (hd : d.dificuldade = some q) :
    ((q < 1 ∨ 5 < q) →
      failsWith (createQuestion db d).1 ErrKind.validationError = true) ∧
    (∀ r, invalidId v = false → db.findUniqueId (resolvedId v) = some r →
      strTruthy d.enunciado = false →
      ((q ≠ 0 → (q < 1 ∨ 5 < q) →
         failsWith (updateQuestion db v d).1 ErrKind.validationError = true) ∧
       (1 ≤ q → q ≤ 5 →
         ∃ r2, (updateQuestion db v d).1 = Except.ok r2 ∧ r2.dificuldade = q) ∧
       (q = 0 →
         ∃ r2, (updateQuestion db v d).1 = Except.ok r2 ∧
           r2.dificuldade = r.dificuldade))) ∧
    (1 ≤ q → q ≤ 5 → strTruthy d.enunciado = true → strTruthy d.respostaCorreta = true →
      numTruthy d.disciplinaId = true → numTruthy d.autorId = true →
      db.findUniqueEnunciado (d.enunciado.getD "") = none →
      ∃ r2, (createQuestion db d).1 = Except.ok r2 ∧ r2.dificuldade = q) := by
  refine ⟨?_, ?_, ?_⟩
  · intro hout
    obtain ⟨m, hm⟩ := validateQuestionData_out_of_range d q hd hout
    simp [createQuestion, hm, failsWith, ServiceError.kind]
  · intro r hv hfound hen
    refine ⟨?_, ?_, ?_⟩
    · intro hq0 hout
      have htr : numTruthy d.dificuldade = true := by
        simp [numTruthy, hd, bne_iff_ne]; exact hq0
      rcases hout with h | h <;>
        simp [updateQuestion, hv, hfound, hen, htr, hd, numTruthy, bne_iff_ne, hq0, h,
          failsWith, ServiceError.kind]
    · intro h1 h5
      have hq0 : q ≠ 0 := by intro h0; rw [h0] at h1; norm_num at h1
      have htr : numTruthy d.dificuldade = true := by
        simp [numTruthy, hd, bne_iff_ne]; exact hq0
      have hn1 : ¬(q < 1) := not_lt.mpr h1
      have hn5 : ¬(5 < q) := not_lt.mpr h5
      simp only [updateQuestion, hv, Bool.false_eq_true, if_false, hfound]
      rw [if_neg (by simp [hen]), if_neg (by simp [hd, hn1, hn5])]
      exact ⟨_, rfl, by simp [applyQuestionPatch, questionPatch, numTruthy, bne_iff_ne, hq0, hd]⟩
    · intro h0
      subst h0
      have htr : numTruthy d.dificuldade = false := by simp [numTruthy, hd]
      simp only [updateQuestion, hv, Bool.false_eq_true, if_false, hfound]
      rw [if_neg (by simp [hen]), if_neg (by simp [htr])]
      exact ⟨_, rfl, by simp [applyQuestionPatch, questionPatch, htr]⟩
  · intro h1 h5 he hr hdi ha hconf
    have hq0 : q ≠ 0 := by intro h0; rw [h0] at h1; norm_num at h1
    have htr : numTruthy d.dificuldade = true := by
      simp [numTruthy, hd, bne_iff_ne]; exact hq0
    have hn1 : ¬(q < 1) := not_lt.mpr h1
    have hn5 : ¬(5 < q) := not_lt.mpr h5
    have hval : validateQuestionData d = Except.ok () := by
      unfold validateQuestionData
      rw [if_neg (by simp [he, hr, hdi, ha, htr]), if_neg (by simp [hd, hn1, hn5])]
    simp only [createQuestion, hval, hconf, Option.isSome_none, Bool.false_eq_true, if_false]
    exact ⟨_, rfl, by simp [hd]⟩

/-- Witness for the amended C1 at concrete inputs: create with difficulty 9
fails with a ValidationError; update with difficulty 9 fails with a
ValidationError; update with difficulty 2 applies it. -/
theorem difficulty_validation_witness :
    failsWith (createQuestion exQDB
        { enunciado := some "x", dificuldade := some 9, respostaCorreta := some "y",
          disciplinaId := some 1, autorId := some 1 }).1 ErrKind.validationError = true ∧
    failsWith (updateQuestion exQDB (JsId.num 1) { dificuldade := some 9 }).1
      ErrKind.validationError = true ∧
    (∃ r2, (updateQuestion exQDB (JsId.num 1) { dificuldade := some 2 }).1 =
      Except.ok r2 ∧ r2.dificuldade = 2) :=
  ⟨(difficulty_validation exQDB
      { enunciado := some "x", dificuldade := some 9, respostaCorreta := some "y",
        disciplinaId := some 1, autorId := some 1 } (JsId.num 1) 9 rfl).1
      (Or.inr (by norm_num)),
   ((difficulty_validation exQDB { dificuldade := some 9 } (JsId.num 1) 9 rfl).2.1
      exQ1 (by decide) (by decide) (by decide)).1 (by norm_num) (Or.inr (by norm_num)),
   ((difficulty_validation exQDB { dificuldade := some 2 } (JsId.num 1) 2 rfl).2.1
      exQ1 (by decide) (by decide) (by decide)).2.1 (by norm_num) (by norm_num)⟩

/-- Claim C5: creating a record whose statement (Question) or name (Subject)
equals an existing one fails with Conflict and inserts nothing; update
re-runs the uniqueness check only for a truthy supplied statement/name that
differs from the current value, failing with Conflict on collision, while
updating a record to its own current statement/name succeeds. -/
theorem uniqueness_conflict (qdb : QuestionDB) (sdb : SubjectDB) (v : JsId)
    (dq : QuestionData) (ds : SubjectData) :
    (∀ e, dq.enunciado = some e → validateQuestionData dq = Except.ok () →
      (qdb.findUniqueEnunciado e).isSome = true →
      failsWith (createQuestion qdb dq).1 ErrKind.conflict = true ∧
      (createQuestion qdb dq).2 = qdb) ∧
    (∀ q e, invalidId v = false → qdb.findUniqueId (resolvedId v) = some q →
      dq.enunciado = some e → e ≠ "" → e ≠ q.enunciado →
      (qdb.findUniqueEnunciado e).isSome = true →
      failsWith (updateQuestion qdb v dq).1 ErrKind.conflict = true ∧
      (updateQuestion qdb v dq).2 = qdb) ∧
    (∀ q, invalidId v = false → qdb.findUniqueId (resolvedId v) = some q →
      ∃ r2, (updateQuestion qdb v { enunciado := some q.enunciado }).1 = Except.ok r2 ∧
        r2.enunciado = q.enunciado) ∧
    (∀ n, ds.nome = some n → validateSubjectData ds = Except.ok () →
      (sdb.findUniqueNome n).isSome = true →
      failsWith (createSubject sdb ds).1 ErrKind.conflict = true ∧
      (createSubject sdb ds).2 = sdb) ∧
    (∀ s n, invalidId v = false → sdb.findUniqueId (resolvedId v) = some s →
      ds.nome = some n → n ≠ "" → n ≠ s.nome →
      (sdb.findUniqueNome n).isSome = true →
      failsWith (updateSubject sdb v ds).1 ErrKind.conflict = true ∧
      (updateSubject sdb v ds).2 = sdb) ∧
    (∀ s, invalidId v = false → sdb.findUniqueId (resolvedId v) = some s →
      ∃ r2, (updateSubject sdb v { nome := some s.nome }).1 = Except.ok r2 ∧
        r2.nome = s.nome) := by
  refine ⟨?_, ?_, ?_, ?_, ?_, ?_⟩
  · intro e he hval hsome
    constructor
    · simp [createQuestion, hval, he, hsome, failsWith, ServiceError.kind]
    · simp [createQuestion, hval, he, hsome]
  · intro q e hv hfound he hne hneq hsome
    constructor
    · simp [updateQuestion, hv, hfound, he, strTruthy, bne_iff_ne, hne, hneq, hsome,
        failsWith, ServiceError.kind]
    · simp [updateQuestion, hv, hfound, he, strTruthy, bne_iff_ne, hne, hneq, hsome]
  · intro q hv hfound
    by_cases h0 : q.enunciado = ""
    · simp only [updateQuestion, hv, Bool.false_eq_true, if_false, hfound]
      rw [if_neg (by simp [strTruthy, h0]), if_neg (by simp [numTruthy])]
      exact ⟨_, rfl, by simp [applyQuestionPatch, questionPatch, strTruthy, h0]⟩
    · simp only [updateQuestion, hv, Bool.false_eq_true, if_false, hfound]
      rw [if_neg (by simp [strTruthy, bne_iff_ne, h0]), if_neg (by simp [numTruthy])]
      exact ⟨_, rfl, by simp [applyQuestionPatch, questionPatch, strTruthy, bne_iff_ne, h0]⟩
  · intro n hn hval hsome
    constructor
    · simp [createSubject, hval, hn, hsome, failsWith, ServiceError.kind]
    · simp [createSubject, hval, hn, hsome]
  · intro s n hv hfound hn hne hneq hsome
    constructor
    · simp [updateSubject, hv, hfound, hn, strTruthy, bne_iff_ne, hne, hneq, hsome,
        failsWith, ServiceError.kind]
    · simp [updateSubject, hv, hfound, hn, strTruthy, bne_iff_ne, hne, hneq, hsome]
  · intro s hv hfound
    by_cases h0 : s.nome = ""
    · simp only [updateSubject, hv, Bool.false_eq_true, if_false, hfound]
      rw [if_neg (by simp [strTruthy, h0])]
      exact ⟨_, rfl, by simp [applySubjectPatch, subjectPatch, strTruthy, h0]⟩
    · simp only [updateSubject, hv, Bool.false_eq_true, if_false, hfound]
      rw [if_neg (by simp [strTruthy, bne_iff_ne, h0])]
      exact ⟨_, rfl, by simp [applySubjectPatch, subjectPatch, strTruthy, bne_iff_ne, h0]⟩

/-- Witness for C5 at concrete inputs: a duplicate statement fails create
with Conflict and leaves the store unchanged, while updating a question to
its own current statement succeeds. -/
theorem uniqueness_conflict_witness :
    (failsWith (createQuestion exQDB
        { enunciado := some "2+2=?", dificuldade := some 2, respostaCorreta := some "y",
          disciplinaId := some 1, autorId := some 1 }).1 ErrKind.conflict = true ∧
      (createQuestion exQDB
        { enunciado := some "2+2=?", dificuldade := some 2, respostaCorreta := some "y",
          disciplinaId := some 1, autorId := some 1 }).2 = exQDB) ∧
    (∃ r2, (updateQuestion exQDB (JsId.num 1) { enunciado := some exQ1.enunciado }).1 =
      Except.ok r2 ∧ r2.enunciado = exQ1.enunciado) :=
  ⟨(uniqueness_conflict exQDB exSDB (JsId.num 1)
      { enunciado := some "2+2=?", dificuldade := some 2, respostaCorreta := some "y",
        disciplinaId := some 1, autorId := some 1 } {}).1 "2+2=?" rfl rfl (by decide),
   (uniqueness_conflict exQDB exSDB (JsId.num 1)
      { enunciado := some "2+2=?", dificuldade := some 2, respostaCorreta := some "y",
        disciplinaId := some 1, autorId := some 1 } {}).2.2.1 exQ1 (by decide) (by decide)⟩

/-- Claim C9: getById, update and delete accept any positive numeric id,
integer or not, and numeric strings, and operate on the record whose id is
the integer truncation (parseInt) of the supplied value. -/
theorem id_coercion (qdb : QuestionDB) (sdb : SubjectDB) (q : ℚ) (hq : 0 < q) :
    invalidId (JsId.num q) = false ∧
    resolvedId (JsId.num q) = ⌊q⌋ ∧
    getQuestionById qdb (JsId.num q) = Except.ok (qdb.findUniqueId ⌊q⌋) ∧
    getSubjectById sdb (JsId.num q) = Except.ok (sdb.findUniqueId ⌊q⌋) ∧
    (∀ r, qdb.findUniqueId ⌊q⌋ = some r →
      (deleteQuestion qdb (JsId.num q)).1 = Except.ok (questionDeleteView r)) ∧
    (∀ r, qdb.findUniqueId ⌊q⌋ = some r →
      (updateQuestion qdb (JsId.num q) {}).1 =
        Except.ok { r with updatedAt := qdb.now }) ∧
    (∀ db : QuestionDB, getQuestionById db (JsId.str "3") =
      Except.ok (db.findUniqueId 3)) ∧
    (∀ db : SubjectDB, getSubjectById db (JsId.str "3") =
      Except.ok (db.findUniqueId 3)) := by
  have hne : q ≠ 0 := ne_of_gt hq
  have hnle : ¬(q ≤ 0) := not_le.mpr hq
  have hinv : invalidId (JsId.num q) = false := by
    simp [invalidId, JsId.truthy, JsId.isNaNjs, JsId.toNumber, JsId.leZero,
      bne_iff_ne, hne, hnle]
  have hres : resolvedId (JsId.num q) = ⌊q⌋ := by
    simp [resolvedId, JsId.parseInt, ratTrunc, le_of_lt hq]
  refine ⟨hinv, hres, ?_, ?_, ?_, ?_, ?_, ?_⟩
  · simp [getQuestionById, hinv, hres]
  · simp [getSubjectById, hinv, hres]
  · intro r hr
    simp [deleteQuestion, hinv, hres, hr]
  · intro r hr
    simp [updateQuestion, hinv, hres, hr, questionPatch, applyQuestionPatch,
      strTruthy, numTruthy]
  · intro db
    have h3 : invalidId (JsId.str "3") = false := by decide
    have hr3 : resolvedId (JsId.str "3") = 3 := by decide
    simp [getQuestionById, h3, hr3]
  · intro db
    have h3 : invalidId (JsId.str "3") = false := by decide
    have hr3 : resolvedId (JsId.str "3") = 3 := by decide
    simp [getSubjectById, h3, hr3]

/-- Witness for C9 at the concrete non-integer id 3.7: the guard accepts it,
it truncates to 3, and getById reads the record with id 3. -/
theorem id_coercion_witness :
    (0 : ℚ) < 37/10 ∧ ⌊(37 : ℚ)/10⌋ = 3 ∧
    getQuestionById exQDB (JsId.num (37/10)) =
      Except.ok (exQDB.findUniqueId ⌊(37 : ℚ)/10⌋) ∧
    getQuestionById exQDB (JsId.str "3") = Except.ok (exQDB.findUniqueId 3) :=
  ⟨by norm_num, by norm_num [Int.floor_eq_iff],
   (id_coercion exQDB exSDB (37/10) (by norm_num)).2.2.1,
   (id_coercion exQDB exSDB (37/10) (by norm_num)).2.2.2.2.2.2.1 exQDB⟩
